import Mathlib

/-!
Verification of the WakeVoter pipeline (johnpfay/WakeVoter).

The development shallowly embeds the three notebooks:
* `Calculate-Voter-MECE-Rank.ipynb` — participation matrix (pandas pivot
  table) and the MECE tier assignment, plus the right join of geocoded
  voters with the per-voter tally;
* `Census-Batch-GeoCode.ipynb` — the chunking while-loop over the address
  list, the per-chunk `dropna` filter, and the per-chunk call to the
  census batch geocoder;
* `Geocode-NCSBE-Data.ipynb` — the street-address cleaning lambda.

DataFrames are embedded as lists of records; pandas boolean masks become
`Bool`-valued predicates; the sequential `.loc` mask assignments on the
`MECE` column become a left fold over (condition, value) pairs; the
network call to the census geocoder is an abstract function returning
`Except` (an uncaught Python exception is `Except.error`).
-/

namespace WakeVoter

/-! ### Calculate-Voter-MECE-Rank.ipynb: participation matrix -/

/-- One row of the voter history file, restricted to the columns the
notebook reads (`usecols=('county_desc','election_lbl','ncid')`). -/
structure HistRecord where
  county_desc : String
  election_lbl : String
  ncid : String
deriving DecidableEq, Repr

/-- `elections = ('10/10/2017','11/07/2017','11/06/2018','11/08/2016','11/06/2012')`. -/
def elections : List String :=
  ["10/10/2017", "11/07/2017", "11/06/2018", "11/08/2016", "11/06/2012"]

/-- `dfSubset = df.loc[df.election_lbl.isin(elections),:]`. -/
def dfSubset (df : List HistRecord) : List HistRecord :=
  df.filter (fun r => elections.contains r.election_lbl)

/-- Cell of `dfPivot = pd.pivot_table(dfSubset, columns='election_lbl',
index='ncid', aggfunc='count', fill_value=0)`: the number of subset
records with the given `ncid` and `election_lbl` (0 when none). -/
def pivotCell (df : List HistRecord) (v e : String) : Nat :=
  (dfSubset df).countP (fun r => r.ncid == v && r.election_lbl == e)

/-- The pivot table's index: the distinct `ncid` values occurring in
`dfSubset`. -/
def pivotIndex (df : List HistRecord) : List String :=
  ((dfSubset df).map (·.ncid)).dedup

/-- One row of `dfPivot` after the `rename` cell mapping the election
labels to the short names `Oct17, Nov12, Nov18, Nov17, Nov16`. -/
structure PivotRow where
  Oct17 : Nat
  Nov12 : Nat
  Nov18 : Nat
  Nov17 : Nat
  Nov16 : Nat
deriving DecidableEq, Repr

/-- The pivot row of voter `v`, each cell renamed per the notebook. -/
def pivotRow (df : List HistRecord) (v : String) : PivotRow :=
  { Oct17 := pivotCell df v "10/10/2017"
    Nov12 := pivotCell df v "11/06/2012"
    Nov18 := pivotCell df v "11/06/2018"
    Nov17 := pivotCell df v "11/07/2017"
    Nov16 := pivotCell df v "11/08/2016" }

/-! ### Calculate-Voter-MECE-Rank.ipynb: filters and MECE assignment -/

/-- `e12 = dfPivot.Nov12 == 1`. -/
def e12 (row : PivotRow) : Bool := row.Nov12 == 1

/-- `e16 = dfPivot.Nov16 == 1`. -/
def e16 (row : PivotRow) : Bool := row.Nov16 == 1

/-- `e17 = (dfPivot.Oct17 == 1) | (dfPivot.Nov17 == 1)`. -/
def e17 (row : PivotRow) : Bool := row.Oct17 == 1 || row.Nov17 == 1

/-- `e18 = dfPivot.Nov18 == 1`. -/
def e18 (row : PivotRow) : Bool := row.Nov18 == 1

/-- The five masked assignments to the `MECE` column, in notebook order:
`loc[e17]=1; loc[~e17&e18]=2; loc[~e17&~e18&e16]=3;
loc[~e17&~e18&~e16&e12]=4; loc[~e17&~e18&~e16&~e12]=5`. -/
def meceSteps (row : PivotRow) : List (Bool × Int) :=
  [ (e17 row, 1),
    (!e17 row && e18 row, 2),
    (!e17 row && !e18 row && e16 row, 3),
    (!e17 row && !e18 row && !e16 row && e12 row, 4),
    (!e17 row && !e18 row && !e16 row && !e12 row, 5) ]

/-- The final value of the `MECE` column for one row: starts at the
sentinel `-1` (`dfPivot["MECE"] = -1`) and each mask whose condition
holds overwrites it with its tier value, in order. -/
def meceOf (row : PivotRow) : Int :=
  (meceSteps row).foldl (fun cur step => if step.1 then step.2 else cur) (-1)

/-! ### Census-Batch-GeoCode.ipynb: chunking the address list -/

/-- One row of the voter-address table submitted to the geocoder, reduced
to the address components the per-chunk `dropna(how='any')` inspects;
`none` models a pandas null (NaN). -/
structure AddrRow where
  id : Nat
  street : Option String
  city : Option String
  zip : Option String
deriving DecidableEq, Repr

/-- A row survives `dropna(how='any')` iff no inspected column is null. -/
def complete (r : AddrRow) : Bool :=
  r.street.isSome && r.city.isSome && r.zip.isSome

/-- `dfAll.iloc[fromID:toID]` row slice (clamped at the end of the
frame, as pandas `iloc` slicing is). -/
def ilocChunk (rows : List AddrRow) (fromID toID : Nat) : List AddrRow :=
  (rows.drop fromID).take (toID - fromID)

/-- `address_set = dfAll.iloc[fromID:toID,1:-2].dropna(how='any')`: the
chunk's rows with every required address component present. -/
def address_set (rows : List AddrRow) (fromID toID : Nat) : List AddrRow :=
  (ilocChunk rows fromID toID).filter complete

/-- The index ranges visited by the notebook's while-loop:
`fromID = 0; toID = fromID+1000; while fromID < numRecs: ...` takes the
slice `iloc[fromID:toID]` (recorded here as the pair
`(fromID, min toID numRecs)`, the slice clamped to the frame), then sets
`fromID = toID; toID = fromID + 10000`.  On every reachable state
`fromID < toID` (initially `toID = fromID + 1000`, afterwards
`toID = fromID + 10000`); the guard carries that invariant so the
recursion terminates. -/
def chunkLoop (numRecs fromID toID : Nat) : List (Nat × Nat) :=
  if _h : fromID < numRecs ∧ fromID < toID then
    (fromID, min toID numRecs) :: chunkLoop numRecs toID (toID + 10000)
  else []
termination_by numRecs - fromID
decreasing_by omega

/-- The full chunk sequence produced by the loop for a frame of
`numRecs` rows, starting from `fromID = 0`, `toID = 1000`. -/
def splitChunks (numRecs : Nat) : List (Nat × Nat) :=
  chunkLoop numRecs 0 1000

/-! ### Census-Batch-GeoCode.ipynb: per-chunk geocoding -/

/-- The ways the `requests.post` round trip inside `censusGeocode` can
fail; in the notebook any of these raises an uncaught Python exception. -/
inductive GeoErr
  | network
  | timeout
  | malformed
deriving DecidableEq, Repr

/-- One parsed CSV line of a geocoder response. -/
abbrev OutRow := List String

/-- The body of the while-loop, iterated over the chunk list: each
iteration calls `censusGeocode` on its chunk (abstracted as `g`, an
external network call that either returns the chunk's response rows or
raises).  An uncaught exception propagates out of the loop, so the
remaining chunks are never visited; the rows of successful iterations
accumulate in order. -/
def processChunks (g : Nat × Nat → Except GeoErr (List OutRow)) :
    List (Nat × Nat) → Except GeoErr (List OutRow)
  | [] => .ok []
  | c :: cs =>
    match g c with
    | .error e => .error e
    | .ok rows =>
      match processChunks g cs with
      | .error e => .error e
      | .ok rest => .ok (rows ++ rest)

/-- A geocoder run in which the request for the first chunk fails with a
network error while any later chunk would succeed. -/
def gFailFirst : Nat × Nat → Except GeoErr (List OutRow) :=
  fun c => if c.1 = 0 then .error .network else .ok [["100 MAIN ST", "Match"]]

/-! ### Calculate-Voter-MECE-Rank.ipynb: right join of geocoded voters
with the per-voter tally -/

/-- One row of `dfVoteGeo` (`ncvoter_Wake_geo.csv`): a geocoded voter
record keyed by `voter_reg_num`, with its geocode payload. -/
structure GeoRec where
  voter_reg_num : Nat
  latitude : String
  longitude : String
deriving DecidableEq, Repr

/-- One row of `dfVoteCount` (`value_counts().reset_index()`): the tally
side, keyed by the column named `index`. -/
structure VoteCount where
  index : Nat
  voter_reg_num : Nat
deriving DecidableEq, Repr

/-- `pd.merge(dfVoteGeo, dfVoteCount, how='right',
left_on='voter_reg_num', right_on='index')`: for each right (tally) row
in order, one output row per matching left (geocode) row; a tally row
with no match still yields one row whose left fields are null (`none`). -/
def mergeRight (left : List GeoRec) (right : List VoteCount) :
    List (Option GeoRec × VoteCount) :=
  right.flatMap (fun t =>
    match left.filter (fun g => g.voter_reg_num == t.index) with
    | [] => [(none, t)]
    | ms => ms.map (fun g => (some g, t)))

/-! ### Geocode-NCSBE-Data.ipynb: street-address cleaning -/

/-- The Python exceptions the cleaning lambda can raise. -/
inductive PyErr
  | indexError
  | attributeError
deriving DecidableEq, Repr

/-- Python `str.split()` with no argument: scan the characters of the
string, splitting on runs of whitespace and discarding empty pieces;
`acc` holds the characters of the token being read, reversed. -/
def pySplitAux : List Char → List Char → List String
  | [], acc => if acc.isEmpty then [] else [String.mk acc.reverse]
  | c :: cs, acc =>
    if c.isWhitespace then
      if acc.isEmpty then pySplitAux cs []
      else String.mk acc.reverse :: pySplitAux cs []
    else pySplitAux cs (c :: acc)

/-- Python `str.split()` with no argument on a whole string. -/
def pySplit (s : String) : List String := pySplitAux s.toList []

/-- The cleaning lambda
`lambda x: "{} {} {}".format(x.split()[0],x.split()[1],x.split()[2])`
applied to one `res_street_address` value.  A missing value (pandas NaN,
modelled `none`) is a float with no `.split`, so the call raises
`AttributeError`; a string with fewer than three tokens raises
`IndexError` on the out-of-range subscript. -/
def cleanAddr : Option String → Except PyErr String
  | none => .error .attributeError
  | some s =>
    match pySplit s with
    | t0 :: t1 :: t2 :: _ => .ok (t0 ++ " " ++ t1 ++ " " ++ t2)
    | _ => .error .indexError

/-- `dfVoter['addr'] = dfVoter.res_street_address.apply(lambda ...)`:
the lambda runs over the whole column in order and the first exception
aborts the `apply` (and with it the run). -/
def applyClean : List (Option String) → Except PyErr (List String)
  | [] => .ok []
  | v :: vs =>
    match cleanAddr v with
    | .error e => .error e
    | .ok a =>
      match applyClean vs with
      | .error e => .error e
      | .ok rest => .ok (a :: rest)

/-! ### Example data for witnesses and counterexamples -/

/-- Two identical history records: the same voter voted twice for the
same tracked election label. -/
def dupRecords : List HistRecord :=
  [⟨"WAKE", "10/10/2017", "AA1"⟩, ⟨"WAKE", "10/10/2017", "AA1"⟩]

/-- An address row with every component present. -/
def exAddrGood : AddrRow :=
  ⟨7, some "100 E MAIN ST", some "RALEIGH", some "27601"⟩

/-- An address row whose zip code is null. -/
def exAddrBad : AddrRow :=
  ⟨8, some "200 W OAK AVE", some "RALEIGH", none⟩

/-- Geocode side of the join example: voters 1 and 3 geocoded. -/
def exGeo : List GeoRec :=
  [⟨1, "35.78", "-78.64"⟩, ⟨3, "35.90", "-78.50"⟩]

/-- Tally side of the join example: voters 1, 2 and 3 tallied. -/
def exTally : List VoteCount :=
  [⟨1, 4⟩, ⟨2, 1⟩, ⟨3, 2⟩]

end WakeVoter

namespace WakeVoter

/-- C1: every pivot row satisfies exactly one of the five MECE
conditions, the sentinel `-1` never survives, and the assigned tier lies
in `{1,2,3,4,5}`. -/
theorem mece_exactly_one_tier (row : PivotRow) :
    (meceSteps row).countP (fun s => s.1) = 1 ∧
    meceOf row ≠ -1 ∧
    meceOf row ∈ ([1, 2, 3, 4, 5] : List Int) := by
  cases h17 : e17 row <;> cases h18 : e18 row <;>
    cases h16 : e16 row <;> cases h12 : e12 row <;>
    simp [meceSteps, meceOf, h17, h18, h16, h12, List.countP] <;> decide

/-- C4: the MECE assignment is a strict first-match-wins priority chain:
a row gets tier `k` exactly when the tier-`k` condition holds and every
higher-priority condition fails; in particular the row
`(Oct17=0, Nov17=0, Nov12=1, Nov16=1, Nov18=1)` gets tier 2. -/
theorem mece_first_match_wins :
    (∀ row : PivotRow,
      (meceOf row = 1 ↔ e17 row = true) ∧
      (meceOf row = 2 ↔ (e17 row = false ∧ e18 row = true)) ∧
      (meceOf row = 3 ↔ (e17 row = false ∧ e18 row = false ∧ e16 row = true)) ∧
      (meceOf row = 4 ↔
        (e17 row = false ∧ e18 row = false ∧ e16 row = false ∧ e12 row = true)) ∧
      (meceOf row = 5 ↔
        (e17 row = false ∧ e18 row = false ∧ e16 row = false ∧ e12 row = false))) ∧
    meceOf { Oct17 := 0, Nov12 := 1, Nov18 := 1, Nov17 := 0, Nov16 := 1 } = 2 := by
  constructor
  · intro row
    cases h17 : e17 row <;> cases h18 : e18 row <;>
      cases h16 : e16 row <;> cases h12 : e12 row <;>
      simp [meceSteps, meceOf, h17, h18, h16, h12]
  · decide

/-- C5: a pivot row whose five election cells are all 0 is assigned
tier 5 (a defined integer value, never the sentinel or an error). -/
theorem mece_all_zero_tier5 (row : PivotRow)
    (hOct17 : row.Oct17 = 0) (hNov12 : row.Nov12 = 0) (hNov18 : row.Nov18 = 0)
    (hNov17 : row.Nov17 = 0) (hNov16 : row.Nov16 = 0) :
    meceOf row = 5 := by
  simp [meceOf, meceSteps, e12, e16, e17, e18,
        hOct17, hNov12, hNov18, hNov17, hNov16]

/-- Witness for C5 at the concrete all-zero row. -/
theorem mece_all_zero_tier5_witness :
    meceOf { Oct17 := 0, Nov12 := 0, Nov18 := 0, Nov17 := 0, Nov16 := 0 } = 5 :=
  mece_all_zero_tier5
    { Oct17 := 0, Nov12 := 0, Nov18 := 0, Nov17 := 0, Nov16 := 0 }
    rfl rfl rfl rfl rfl

/-- C9: the filters test `== 1`, not `>= 1`, and the pivot stores raw
counts, so a voter whose only participation is `c ≥ 2` history records
for the Oct17 election fails every filter and lands in tier 5; in
particular the pivot built from two duplicate `10/10/2017` records for
voter `AA1` assigns that voter tier 5, not tier 1. -/
theorem mece_double_vote_tier5 (c : Nat) (hc : 2 ≤ c) :
    e17 { Oct17 := c, Nov12 := 0, Nov18 := 0, Nov17 := 0, Nov16 := 0 } = false ∧
    meceOf { Oct17 := c, Nov12 := 0, Nov18 := 0, Nov17 := 0, Nov16 := 0 } = 5 ∧
    (pivotRow dupRecords "AA1").Oct17 = 2 ∧
    meceOf (pivotRow dupRecords "AA1") = 5 := by
  have hne : c ≠ 1 := by omega
  refine ⟨?_, ?_, by decide, by decide⟩
  · simp [e17, hne]
  · simp [meceOf, meceSteps, e12, e16, e17, e18, hne]

/-- Witness for C9 at `c = 2`. -/
theorem mece_double_vote_tier5_witness :
    2 ≤ 2 ∧
    meceOf { Oct17 := 2, Nov12 := 0, Nov18 := 0, Nov17 := 0, Nov16 := 0 } = 5 :=
  ⟨by decide, (mece_double_vote_tier5 2 (by decide)).2.1⟩

/-- C3 (amended): the pivot table has one row per voter appearing in at
least one record whose election label is tracked, and a cell holds the
raw count of matching records — positive exactly when such a record
exists. -/
theorem pivot_row_and_cell (df : List HistRecord) (v e : String) :
    (v ∈ pivotIndex df ↔
      ∃ r ∈ df, r.ncid = v ∧ r.election_lbl ∈ elections) ∧
    pivotCell df v e =
      (dfSubset df).countP (fun r => r.ncid == v && r.election_lbl == e) ∧
    (1 ≤ pivotCell df v e ↔
      ∃ r ∈ df, r.ncid = v ∧ r.election_lbl = e ∧ e ∈ elections) := by
  refine ⟨?_, rfl, ?_⟩
  · simp only [pivotIndex, List.mem_dedup, List.mem_map, dfSubset,
      List.mem_filter, List.elem_iff]
    constructor
    · rintro ⟨r, ⟨hmem, hlbl⟩, hncid⟩
      exact ⟨r, hmem, hncid, hlbl⟩
    · rintro ⟨r, hmem, hncid, hlbl⟩
      exact ⟨r, ⟨hmem, hlbl⟩, hncid⟩
  · rw [show (1 ≤ pivotCell df v e) = (0 < pivotCell df v e) from rfl,
      pivotCell, List.countP_pos_iff]
    simp only [dfSubset, List.mem_filter, Bool.and_eq_true, beq_iff_eq,
      List.elem_iff]
    constructor
    · rintro ⟨r, ⟨hmem, hlbl⟩, hncid, hlbleq⟩
      exact ⟨r, hmem, hncid, hlbleq, hlbleq ▸ hlbl⟩
    · rintro ⟨r, hmem, hncid, hlbleq, he⟩
      exact ⟨r, ⟨hmem, hlbleq ▸ he⟩, hncid, hlbleq⟩

/-- C3 (counterexample): with two duplicate history records for voter
`AA1` and tracked election `10/10/2017`, a record for the pair exists
but the pivot cell is the raw count 2, not the presence indicator 1. -/
theorem pivot_cell_not_presence :
    pivotCell dupRecords "AA1" "10/10/2017" = 2 ∧
    (∃ r ∈ dupRecords, r.ncid = "AA1" ∧ r.election_lbl = "10/10/2017") ∧
    pivotCell dupRecords "AA1" "10/10/2017" ≠ 1 := by
  refine ⟨by decide, ⟨⟨"WAKE", "10/10/2017", "AA1"⟩, by decide, by decide⟩, by decide⟩

/-- Helper: each loop step either emits the clamped slice `[fromID, min
toID numRecs)` and continues from `toID` with stride 10000, or stops. -/
theorem chunkLoop_countP (numRecs fromID toID k : Nat) (h1 : fromID < toID) :
    (chunkLoop numRecs fromID toID).countP
        (fun c => decide (c.1 ≤ k ∧ k < c.2)) =
      if fromID ≤ k ∧ k < numRecs then 1 else 0 := by
  rw [chunkLoop]
  split
  · rename_i h
    rw [List.countP_cons, chunkLoop_countP numRecs toID (toID + 10000) k (by omega)]
    simp only [decide_eq_true_eq]
    split_ifs <;> omega
  · rename_i h
    simp only [List.countP_nil]
    split_ifs <;> omega
termination_by numRecs - fromID
decreasing_by omega

/-- Helper: the concrete chunk sequence for a 12,345-row frame. -/
theorem splitChunks_12345 :
    splitChunks 12345 = [(0, 1000), (1000, 11000), (11000, 12345)] := by
  rw [splitChunks, chunkLoop, chunkLoop, chunkLoop, chunkLoop]
  norm_num

/-- C2 (counterexample): for a 12,345-row frame the loop produces 3
chunks (one of 1,000 rows, then strides of 10,000), not the 13 chunks of
a uniform chunk size 1,000; the last chunk has 1,345 rows, not 345. -/
theorem splitChunks_not_thirteen :
    (splitChunks 12345).length = 3 ∧
    (splitChunks 12345).length ≠ 13 ∧
    (splitChunks 12345).getLast? = some (11000, 12345) := by
  rw [splitChunks_12345]
  exact ⟨rfl, by decide, rfl⟩

/-- C2 (amended): the chunks are contiguous, non-overlapping and cover
the row indices `[0, numRecs)` exactly once each in original order, but
their sizes are not uniform: the first chunk holds at most 1,000 rows
and every later chunk at most 10,000, so a 12,345-row frame yields the
3 chunks `[0,1000), [1000,11000), [11000,12345)`. -/
theorem splitChunks_cover_exactly_once :
    (∀ numRecs k : Nat,
      (splitChunks numRecs).countP (fun c => decide (c.1 ≤ k ∧ k < c.2)) =
        if k < numRecs then 1 else 0) ∧
    splitChunks 12345 = [(0, 1000), (1000, 11000), (11000, 12345)] := by
  refine ⟨fun numRecs k => ?_, splitChunks_12345⟩
  rw [splitChunks, chunkLoop_countP numRecs 0 1000 k (by omega)]
  simp

/-- C6 (counterexample): when the request for the first chunk raises, the
loop aborts with that exception even though the second chunk's request
would have succeeded — the run never produces a combined output. -/
theorem processChunks_abort_cex :
    processChunks gFailFirst [(0, 1000), (1000, 2000)] =
      Except.error GeoErr.network ∧
    gFailFirst (1000, 2000) = Except.ok [["100 MAIN ST", "Match"]] ∧
    ∀ rows, processChunks gFailFirst [(0, 1000), (1000, 2000)] ≠ Except.ok rows := by
  refine ⟨rfl, rfl, fun rows => ?_⟩
  simp [processChunks, gFailFirst]

/-- C6 (amended): a failed chunk request is an uncaught exception: it
propagates out of the loop, so the whole run aborts with that error and
no chunk after the failing one is processed. -/
theorem processChunks_error_propagates
    (g : Nat × Nat → Except GeoErr (List OutRow)) (e : GeoErr)
    (c : Nat × Nat) (cs : List (Nat × Nat)) (h : g c = .error e) :
    processChunks g (c :: cs) = .error e := by
  simp [processChunks, h]

/-- Witness for the amended C6 at the concrete failing geocoder. -/
theorem processChunks_error_propagates_witness :
    gFailFirst (0, 1000) = Except.error GeoErr.network ∧
    processChunks gFailFirst [(0, 1000), (1000, 2000)] =
      Except.error GeoErr.network :=
  ⟨rfl, processChunks_error_propagates gFailFirst GeoErr.network
    (0, 1000) [(1000, 2000)] rfl⟩

/-- C7: a chunk's submission is exactly its rows with every required
address component present — a row with a null component is never in the
submitted `address_set` (in particular any row with a null zip), while
the complete rows of the same chunk remain. -/
theorem address_set_drops_incomplete
    (rows : List AddrRow) (fromID toID : Nat) (r : AddrRow) :
    (r ∈ address_set rows fromID toID ↔
      r ∈ ilocChunk rows fromID toID ∧ complete r = true) ∧
    (r.zip = none → r ∉ address_set rows fromID toID) := by
  constructor
  · simp [address_set, List.mem_filter]
  · intro hz hmem
    rw [address_set, List.mem_filter] at hmem
    simp [complete, hz] at hmem

/-- Witness for C7: in the chunk holding both example rows, the row with
the null zip is excluded and the complete row is submitted. -/
theorem address_set_drops_incomplete_witness :
    exAddrBad.zip = none ∧
    exAddrBad ∉ address_set [exAddrGood, exAddrBad] 0 1000 ∧
    exAddrGood ∈ address_set [exAddrGood, exAddrBad] 0 1000 :=
  ⟨rfl,
   (address_set_drops_incomplete [exAddrGood, exAddrBad] 0 1000 exAddrBad).2 rfl,
   (address_set_drops_incomplete [exAddrGood, exAddrBad] 0 1000 exAddrGood).1.mpr
     ⟨by decide, rfl⟩⟩

/-- Helper: under distinct geocode keys, the per-tally-row match list
collapses so that the row contributes exactly one output row's worth of
tally data. -/
theorem mergeRight_group_snd (left : List GeoRec)
    (hnd : (left.map (fun g : GeoRec => g.voter_reg_num)).Nodup) (t : VoteCount) :
    ((match left.filter (fun g : GeoRec => g.voter_reg_num == t.index) with
      | [] => [(none, t)]
      | ms => ms.map (fun g => (some g, t))).map Prod.snd) = [t] := by
  rcases hfil : left.filter (fun g : GeoRec => g.voter_reg_num == t.index)
    with _ | ⟨g, gs⟩
  · rfl
  · have hsub :
        (left.filter (fun g : GeoRec => g.voter_reg_num == t.index)).Sublist left :=
      List.filter_sublist left
    have hnd2 : ((left.filter (fun g : GeoRec => g.voter_reg_num == t.index)).map
        (fun g : GeoRec => g.voter_reg_num)).Nodup :=
      List.Nodup.sublist (hsub.map (fun g : GeoRec => g.voter_reg_num)) hnd
    rw [hfil] at hnd2
    cases gs with
    | nil => rfl
    | cons g2 gs2 =>
      exfalso
      have hg : g ∈ left.filter (fun g : GeoRec => g.voter_reg_num == t.index) := by
        rw [hfil]; exact List.mem_cons_self _ _
      have hg2 : g2 ∈ left.filter (fun g : GeoRec => g.voter_reg_num == t.index) := by
        rw [hfil]; exact List.mem_cons_of_mem _ (List.mem_cons_self _ _)
      have hkg : g.voter_reg_num = t.index :=
        by simpa using (List.mem_filter.mp hg).2
      have hkg2 : g2.voter_reg_num = t.index :=
        by simpa using (List.mem_filter.mp hg2).2
      have : g.voter_reg_num ∉ (g2 :: gs2).map (fun g : GeoRec => g.voter_reg_num) :=
        (List.nodup_cons.mp hnd2).1
      exact this (by simp [hkg, hkg2])

/-- C8: merging the geocode records with the tally via a right join on
the voter number keeps every tallied voter exactly once (when the
geocode keys are distinct), in tally order, and a tallied voter with no
geocode match appears with null geocode fields. -/
theorem mergeRight_preserves_tally (left : List GeoRec) (right : List VoteCount)
    (hnd : (left.map (fun g : GeoRec => g.voter_reg_num)).Nodup) :
    (mergeRight left right).map Prod.snd = right ∧
    ∀ t ∈ right, (∀ g ∈ left, g.voter_reg_num ≠ t.index) →
      (none, t) ∈ mergeRight left right := by
  constructor
  · induction right with
    | nil => rfl
    | cons t ts ih =>
      have hstep : mergeRight left (t :: ts) =
          (match left.filter (fun g : GeoRec => g.voter_reg_num == t.index) with
            | [] => [(none, t)]
            | ms => ms.map (fun g => (some g, t))) ++ mergeRight left ts := by
        rw [mergeRight, mergeRight, List.flatMap_cons]
      rw [hstep, List.map_append, ih, mergeRight_group_snd left hnd t]
      rfl
  · intro t ht hnomatch
    have hfil : left.filter (fun g : GeoRec => g.voter_reg_num == t.index) = [] := by
      rw [List.filter_eq_nil_iff]
      intro g hg
      simpa using hnomatch g hg
    rw [mergeRight]
    refine List.mem_flatMap.mpr ⟨t, ht, ?_⟩
    rw [hfil]
    exact List.mem_singleton.mpr rfl

/-- Witness for C8 on a tally of voters 1, 2, 3 with geocode data for 1
and 3 only: three output rows, voter 2 with null geocode fields. -/
theorem mergeRight_preserves_tally_witness :
    (mergeRight exGeo exTally).map Prod.snd = exTally ∧
    (none, (⟨2, 1⟩ : VoteCount)) ∈ mergeRight exGeo exTally ∧
    (mergeRight exGeo exTally).length = 3 :=
  ⟨(mergeRight_preserves_tally exGeo exTally (by decide)).1,
   (mergeRight_preserves_tally exGeo exTally (by decide)).2 ⟨2, 1⟩
     (by decide) (by decide),
   by decide⟩

/-- C10: the street-address cleaning lambda returns the first three
whitespace-separated tokens joined by single spaces when the value is a
string of at least three tokens; it raises `IndexError` on a string with
fewer tokens and `AttributeError` on a missing (NaN) value, and one such
exception aborts the whole column `apply`. -/
theorem cleanAddr_spec :
    (∀ (s : String) (t0 t1 t2 : String) (rest : List String),
      pySplit s = t0 :: t1 :: t2 :: rest →
      cleanAddr (some s) = .ok (t0 ++ " " ++ t1 ++ " " ++ t2)) ∧
    (∀ s : String, (pySplit s).length < 3 →
      cleanAddr (some s) = .error .indexError) ∧
    cleanAddr none = .error .attributeError ∧
    (∀ (vals : List (Option String)) (v : Option String), v ∈ vals →
      (∃ e, cleanAddr v = .error e) → ∃ e, applyClean vals = .error e) := by
  refine ⟨?_, ?_, rfl, ?_⟩
  · intro s t0 t1 t2 rest h
    simp [cleanAddr, h]
  · intro s h
    rcases hs : pySplit s with _ | ⟨a, rest1⟩
    · simp [cleanAddr, hs]
    · rcases rest1 with _ | ⟨b, rest2⟩
      · simp [cleanAddr, hs]
      · rcases rest2 with _ | ⟨c, rest3⟩
        · simp [cleanAddr, hs]
        · rw [hs] at h
          simp only [List.length_cons] at h
          omega
  · intro vals
    induction vals with
    | nil => intro v hv; simp at hv
    | cons a l ih =>
      intro v hv he
      obtain ⟨e, he⟩ := he
      rcases List.mem_cons.mp hv with hva | hvl
      · subst hva
        exact ⟨e, by simp [applyClean, he]⟩
      · cases h1 : cleanAddr a with
        | error e1 =>
          exact ⟨e1, by simp [applyClean, h1]⟩
        | ok b =>
          obtain ⟨e2, he2⟩ := ih v hvl ⟨e, he⟩
          exact ⟨e2, by simp [applyClean, h1, he2]⟩

/-- Witness for C10 at concrete addresses: a three-plus-token string is
cleaned, a one-token string raises `IndexError`, a missing value raises
`AttributeError`, and the missing value aborts the column `apply`. -/
theorem cleanAddr_spec_witness :
    cleanAddr (some "100 E MAIN ST") = .ok "100 E MAIN" ∧
    cleanAddr (some "MAIN") = .error .indexError ∧
    cleanAddr none = .error .attributeError ∧
    (∃ e, applyClean [some "100 E MAIN ST", none] = .error e) :=
  ⟨cleanAddr_spec.1 "100 E MAIN ST" "100" "E" "MAIN" ["ST"] (by decide),
   cleanAddr_spec.2.1 "MAIN" (by decide),
   cleanAddr_spec.2.2.1,
   cleanAddr_spec.2.2.2 [some "100 E MAIN ST", none] none (by decide)
     ⟨.attributeError, rfl⟩⟩

end WakeVoter
